import Mathlib

/-!
Verification of the employee-directory front end (employee-bloom).

The development shallowly embeds the data-synchronization logic of the
repository: the `useEmployees` hook of `src/unnamed/part_001` (namespace `P1`),
the re-fetch-after-write variant in `src/src/components/EmployeeManagement.tsx`
together with the validating form `src/src/components/EmployeeForm.tsx`
(namespace `Mgmt`), and the secondary hook embedded in
`src/src/components/EmployeeTable.tsx` (namespace `ET`).

Asynchronous network effects are embedded by passing the outcome of each
`fetch` call explicitly as an argument: each store operation becomes a pure
function from the current component state and the outcome of its network
call(s) to the next component state.  Toast notifications are recorded as a
list of their description strings.
-/

namespace P1

/-- Employee record of `src/unnamed/part_001` (interface Employee):
`{ id: number; name: string; email: string; role: string; status: Active | Inactive }`. -/
inductive Status where
  | active
  | inactive
deriving DecidableEq, Repr

structure Employee where
  id : Nat
  name : String
  email : String
  role : String
  status : Status
deriving DecidableEq, Repr

/-- The plain fields of a `fetch` `Response` as used by the hook:
`res.status`, `res.statusText`, and the text body `await res.text()`
read on the error path. -/
structure HttpResponse where
  status : Nat
  statusText : String
  textBody : String
deriving DecidableEq, Repr

/-- `res.ok` of the Fetch API: status in the inclusive range 200..299. -/
def HttpResponse.ok (r : HttpResponse) : Bool :=
  200 ≤ r.status && r.status < 300

/-- Outcome of one `fetch` call: either a response arrived (with its parsed
JSON payload `json`, consumed only on the `res.ok` path), or the promise
rejected with a transport error message. -/
inductive FetchOutcome (α : Type) where
  | response (r : HttpResponse) (json : α)
  | reject (message : String)

/-- State owned by the `useEmployees` hook of part_001:
`employees`, `loading`, `error`. -/
structure StoreState where
  employees : List Employee
  loading : Bool
  error : Option String
deriving DecidableEq, Repr

/-- The error message thrown on a non-ok response:
`Failed to <op> (<status>): <errorData || res.statusText>`.
The JS `||` falls back to `statusText` exactly when the text body is the
empty string. -/
def errMsg (opName : String) (r : HttpResponse) : String :=
  "Failed to " ++ opName ++ " (" ++ toString r.status ++ "): " ++
    (if r.textBody = "" then r.statusText else r.textBody)

/-- `fetchEmployees` of part_001 lines 87-107: sets loading, fetches the
collection; on ok replaces `employees` with the JSON array; on a non-ok
response or a rejected fetch sets `error` to the thrown message; `finally`
clears loading.  Success does not touch `error`. -/
def fetchEmployees (s : StoreState) (out : FetchOutcome (List Employee)) :
    StoreState :=
  let s0 : StoreState := { s with loading := true }
  match out with
  | .response r json =>
      if r.ok then { s0 with employees := json, loading := false }
      else { s0 with error := some (errMsg "fetch employees" r), loading := false }
  | .reject m => { s0 with error := some m, loading := false }

/-- `addEmployee` of part_001 lines 135-148 (through `wrap`): POSTs the
employee; on ok appends the created record echoed by the server to the
collection; on failure `wrap` sets `error` to the thrown message and the
collection is untouched.  `loading` is never touched. -/
def addEmployee (s : StoreState) (out : FetchOutcome Employee) : StoreState :=
  match out with
  | .response r created =>
      if r.ok then { s with employees := s.employees ++ [created] }
      else { s with error := some (errMsg "add employee" r) }
  | .reject m => { s with error := some m }

/-- `updateEmployee` of part_001 lines 150-163 (through `wrap`): PUTs to the
URL keyed by `emp.email`; on ok maps the collection, replacing every entry
whose email equals `emp.email` by the updated record echoed by the server;
on failure sets `error` and leaves the collection untouched. -/
def updateEmployee (s : StoreState) (emp : Employee)
    (out : FetchOutcome Employee) : StoreState :=
  match out with
  | .response r updated =>
      if r.ok then
        { s with employees :=
            s.employees.map (fun e => if e.email = emp.email then updated else e) }
      else { s with error := some (errMsg "update employee" r) }
  | .reject m => { s with error := some m }

/-- `deleteEmployee` of part_001 lines 165-173 (through `wrap`): DELETEs the
URL keyed by `email`; on ok filters out every entry with that email; on
failure sets `error` and leaves the collection untouched. -/
def deleteEmployee (s : StoreState) (email : String)
    (out : FetchOutcome Unit) : StoreState :=
  match out with
  | .response r _ =>
      if r.ok then
        { s with employees := s.employees.filter (fun e => e.email ≠ email) }
      else { s with error := some (errMsg "delete employee" r) }
  | .reject m => { s with error := some m }

/-- `handleSubmit` of the part_001 `EmployeeForm` (line 321):
`() => onSave(form)` - the save callback is invoked unconditionally, with no
local validation.  `some form` records that `onSave` was called with the
form contents. -/
def formHandleSubmit (form : Employee) : Option Employee :=
  some form

/-- Which request `handleSave` of part_001 (lines 505-514) issues for a saved
form: `emp.id` truthy (nonzero) routes to `updateEmployee` (PUT), otherwise
to `addEmployee` (POST).  Both issue a network request unconditionally. -/
inductive RequestKind where
  | post
  | put
deriving DecidableEq, Repr

def handleSave (emp : Employee) : RequestKind :=
  if emp.id ≠ 0 then .put else .post

/-- The network request issued by submitting the part_001 form: `handleSubmit`
passes the form to `onSave = handleSave`, which always issues a request. -/
def submitRequest (form : Employee) : Option RequestKind :=
  (formHandleSubmit form).map handleSave

end P1

namespace Mgmt

/-- Employee record of `src/src/types/employee.ts`: all-string fields plus
two Date fields, embedded as natural-number timestamps. -/
structure EmployeeRec where
  id : String
  name : String
  email : String
  department : String
  role : String
  createdAt : Nat
  updatedAt : Nat
deriving DecidableEq, Repr

/-- Form data of `src/src/types/employee.ts` (interface EmployeeFormData). -/
structure EmployeeFormData where
  name : String
  email : String
  department : String
  role : String
deriving DecidableEq, Repr

/-- JS `String.prototype.trim()`: the string with leading and trailing
whitespace removed. -/
def jsTrim (s : String) : String :=
  ⟨((s.toList.dropWhile Char.isWhitespace).reverse.dropWhile
      Char.isWhitespace).reverse⟩

/-- A character admitted by the class `[^\s@]` of the email regex in
`EmployeeForm.tsx` line 56: neither whitespace nor the at sign. -/
def isAddrChar (c : Char) : Bool :=
  !c.isWhitespace && c ≠ '@'

/-- All decompositions of a list into a prefix and the remaining suffix,
used to give the regex its exists-a-decomposition semantics. -/
def splits : List Char → List (List Char × List Char)
  | [] => [([], [])]
  | c :: cs => ([], c :: cs) :: (splits cs).map (fun p => (c :: p.1, p.2))

/-- The test of the anchored JS regex of `EmployeeForm.tsx` line 56.
A string matches exactly when it decomposes as
`local ++ at ++ host ++ dot ++ tail` with `local`, `host`, `tail` nonempty
runs of characters that are neither whitespace nor the at sign. -/
def matchesEmailPattern (s : String) : Bool :=
  (splits s.toList).any fun p =>
    match p.2 with
    | '@' :: rest =>
        !p.1.isEmpty && p.1.all isAddrChar &&
          ((splits rest).any fun q =>
            match q.2 with
            | '.' :: tail =>
                !q.1.isEmpty && q.1.all isAddrChar &&
                  !tail.isEmpty && tail.all isAddrChar
            | _ => false)
    | _ => false

/-- The `newErrors` object built by `validateForm` of `EmployeeForm.tsx`
lines 47-70: per-field optional error messages. -/
structure FormErrors where
  name : Option String
  email : Option String
  department : Option String
  role : Option String
deriving DecidableEq, Repr

def validateErrors (f : EmployeeFormData) : FormErrors :=
  { name := if jsTrim f.name = "" then some "Name is required" else none
    email :=
      if jsTrim f.email = "" then some "Email is required"
      else if matchesEmailPattern f.email then none
      else some "Invalid email format"
    department := if f.department = "" then some "Department is required" else none
    role := if jsTrim f.role = "" then some "Role is required" else none }

/-- `Object.keys(newErrors).length === 0`: no field carries an error. -/
def FormErrors.clear (e : FormErrors) : Bool :=
  e.name.isNone && e.email.isNone && e.department.isNone && e.role.isNone

/-- `validateForm` of `EmployeeForm.tsx`: true exactly when no validation
error was recorded. -/
def validateForm (f : EmployeeFormData) : Bool :=
  (validateErrors f).clear

/-- `handleSubmit` of `EmployeeForm.tsx` lines 72-77: calls `onSubmit` with
the form data exactly when `validateForm` passes.  `some f` records that
`onSubmit` was invoked (which is what triggers the network call in
`EmployeeManagement.tsx`); `none` records that nothing was called. -/
def handleSubmit (f : EmployeeFormData) : Option EmployeeFormData :=
  if validateForm f then some f else none

/-- Outcome of one `fetch` call as consumed by `EmployeeManagement.tsx` and
the `EmployeeTable.tsx` hook: `ok` carries the parsed JSON of a response
with `response.ok` true; `httpFail` models `response.ok` false, carrying
the `message` field of the parsed error body when present and nonempty
(the JS `errorData.message || fallback` uses the fallback otherwise);
`reject` is a transport failure with the thrown error message. -/
inductive MgmtOutcome (α : Type) where
  | ok (data : α)
  | httpFail (jsonMessage : Option String)
  | reject (message : String)

/-- State of the `EmployeeManagement` component of
`src/src/components/EmployeeManagement.tsx`: the collection, the loading
flag, and the descriptions of the toasts raised so far (errors are surfaced
through toasts in this variant). -/
structure MgmtState where
  employees : List EmployeeRec
  isLoading : Bool
  toasts : List String
deriving DecidableEq, Repr

/-- `fetchAllEmployees` of `EmployeeManagement.tsx` lines 25-44: sets
loading, fetches; on ok replaces the collection; on a non-ok response or a
rejected fetch raises the fixed destructive toast and leaves the
collection untouched; `finally` clears loading. -/
def fetchAllEmployees (s : MgmtState) (out : MgmtOutcome (List EmployeeRec)) :
    MgmtState :=
  let s0 : MgmtState := { s with isLoading := true }
  match out with
  | .ok data => { s0 with employees := data, isLoading := false }
  | .httpFail _ =>
      { s0 with
          toasts := s0.toasts ++ ["Failed to load employee data."],
          isLoading := false }
  | .reject _ =>
      { s0 with
          toasts := s0.toasts ++ ["Failed to load employee data."],
          isLoading := false }

/-- `handleAddEmployee` of `EmployeeManagement.tsx` lines 66-97: sets
loading, POSTs the form data; on ok re-fetches the whole collection
(outcome `refetch`) and raises the success toast; on failure raises the
error toast built from the body message (fallback
`Failed to add employee`) and leaves the collection untouched; `finally`
clears loading. -/
def handleAddEmployee (s : MgmtState) (fd : EmployeeFormData)
    (post : MgmtOutcome Unit) (refetch : MgmtOutcome (List EmployeeRec)) :
    MgmtState :=
  let s0 : MgmtState := { s with isLoading := true }
  match post with
  | .ok _ =>
      let s1 := fetchAllEmployees s0 refetch
      { s1 with
        toasts := s1.toasts ++
          [fd.name ++ " has been successfully added to the team."],
        isLoading := false }
  | .httpFail m =>
      { s0 with
          toasts := s0.toasts ++ [m.getD "Failed to add employee"],
          isLoading := false }
  | .reject m =>
      { s0 with toasts := s0.toasts ++ [m], isLoading := false }

/-- `handleDeleteEmployee` of `EmployeeManagement.tsx` lines 135-172: looks
the record up by comparing the given key against employee ids
(`employees.find(emp => emp.id === employeeId)`).  When the lookup fails it
raises the `Employee not found in local state.` toast and returns without
touching the network.  Otherwise it DELETEs the URL keyed by the found
email of the found record, re-fetching on success.  The second component records the
email a DELETE request was issued to (`none` means no request). -/
def handleDeleteEmployee (s : MgmtState) (employeeId : String)
    (del : MgmtOutcome Unit) (refetch : MgmtOutcome (List EmployeeRec)) :
    MgmtState × Option String :=
  match s.employees.find? (fun emp => emp.id = employeeId) with
  | none =>
      ({ s with toasts := s.toasts ++ ["Employee not found in local state."] },
       none)
  | some employeeToDelete =>
      match del with
      | .ok _ =>
          let s1 := fetchAllEmployees s refetch
          ({ s1 with
             toasts := s1.toasts ++
               [employeeToDelete.name ++ " has been removed from the team."] },
           some employeeToDelete.email)
      | .httpFail m =>
          ({ s with toasts := s.toasts ++ [m.getD "Failed to delete employee"] },
           some employeeToDelete.email)
      | .reject m =>
          ({ s with toasts := s.toasts ++ [m] }, some employeeToDelete.email)

/-- `handleDeleteConfirm` of `src/src/components/EmployeeTable.tsx` lines
51-58 composed with the `onDelete` prop: the confirmation passes the
EMAIL of the selected employee as the key to `onDelete`, which in
`EmployeeManagement.tsx` is `handleDeleteEmployee`. -/
def handleDeleteConfirm (s : MgmtState) (employeeToDelete : EmployeeRec)
    (del : MgmtOutcome Unit) (refetch : MgmtOutcome (List EmployeeRec)) :
    MgmtState × Option String :=
  handleDeleteEmployee s employeeToDelete.email del refetch

end Mgmt

namespace ET

/-- State of the `useEmployees` hook embedded in
`src/src/components/EmployeeTable.tsx` lines 190-254. -/
structure HookState where
  employees : List Mgmt.EmployeeRec
  isLoading : Bool
  error : Option String
deriving DecidableEq, Repr

/-- `fetchEmployees` of the `EmployeeTable.tsx` hook (lines 195-207): sets
loading; on ok replaces the collection; a non-ok response throws the fixed
message `Failed to fetch employees`, a rejected fetch throws its own
message, and the catch stores the thrown message in `error`; `finally`
clears loading. -/
def fetchEmployees (s : HookState) (out : Mgmt.MgmtOutcome (List Mgmt.EmployeeRec)) :
    HookState :=
  let s0 : HookState := { s with isLoading := true }
  match out with
  | .ok data => { s0 with employees := data, isLoading := false }
  | .httpFail _ =>
      { s0 with error := some "Failed to fetch employees", isLoading := false }
  | .reject m => { s0 with error := some m, isLoading := false }

/-- `deleteEmployee` of the `EmployeeTable.tsx` hook (lines 241-251): DELETEs
the URL keyed by the email; on ok re-fetches the collection; a non-ok
response stores `Failed to delete employee` in `error`, a rejected fetch
stores its message; the collection itself is untouched on failure. -/
def deleteEmployee (s : HookState) (email : String)
    (del : Mgmt.MgmtOutcome Unit)
    (refetch : Mgmt.MgmtOutcome (List Mgmt.EmployeeRec)) : HookState :=
  match del with
  | .ok _ => fetchEmployees s refetch
  | .httpFail _ => { s with error := some "Failed to delete employee" }
  | .reject m => { s with error := some m }

end ET

/-- Claim C2: a successful load replaces the local collection wholesale with
the server data, in server order, and a second successful load returning the
empty array yields an empty local collection with nothing retained. -/
theorem load_replaces_wholesale (s : P1.StoreState) (r r2 : P1.HttpResponse)
    (l : List P1.Employee) (hok : r.ok = true) (hok2 : r2.ok = true) :
    (P1.fetchEmployees s (.response r l)).employees = l ∧
    (P1.fetchEmployees (P1.fetchEmployees s (.response r l))
        (.response r2 [])).employees = [] := by
  constructor
  · simp [P1.fetchEmployees, hok]
  · simp [P1.fetchEmployees, hok, hok2]

/-- Witness for C2 at a two-record server collection followed by an empty
reload. -/
theorem load_replaces_wholesale_witness :
    (P1.fetchEmployees ⟨[], true, none⟩
        (.response ⟨200, "OK", ""⟩
          [⟨1, "A", "a@c.io", "Dev", .active⟩,
           ⟨2, "B", "b@c.io", "UX", .inactive⟩])).employees
      = [⟨1, "A", "a@c.io", "Dev", .active⟩,
         ⟨2, "B", "b@c.io", "UX", .inactive⟩] ∧
    (P1.fetchEmployees
        (P1.fetchEmployees ⟨[], true, none⟩
          (.response ⟨200, "OK", ""⟩
            [⟨1, "A", "a@c.io", "Dev", .active⟩,
             ⟨2, "B", "b@c.io", "UX", .inactive⟩]))
        (.response ⟨200, "OK", ""⟩ [])).employees = [] :=
  load_replaces_wholesale ⟨[], true, none⟩ ⟨200, "OK", ""⟩ ⟨200, "OK", ""⟩
    [⟨1, "A", "a@c.io", "Dev", .active⟩, ⟨2, "B", "b@c.io", "UX", .inactive⟩]
    (by decide) (by decide)

/-- Claim C4: a successful update keyed by email rewrites the collection
positionally: the entry at each position is left identical when its email
differs from the key and is replaced by the record echoed by the server when
its email equals the key; the length is unchanged. -/
theorem update_replaces_only_matching (s : P1.StoreState)
    (emp updated : P1.Employee) (r : P1.HttpResponse) (hok : r.ok = true) :
    (P1.updateEmployee s emp (.response r updated)).employees.length
        = s.employees.length ∧
    ∀ i : Nat,
      (P1.updateEmployee s emp (.response r updated)).employees.get? i
        = (s.employees.get? i).map
            (fun e => if e.email = emp.email then updated else e) := by
  constructor
  · simp [P1.updateEmployee, hok]
  · intro i
    simp [P1.updateEmployee, hok, List.get?_map]

/-- Witness for C4: in a two-record collection, updating the record keyed
`a@c.io` replaces it and leaves the record at position 1 identical. -/
theorem update_replaces_only_matching_witness :
    (P1.updateEmployee
        ⟨[⟨1, "A", "a@c.io", "Dev", .active⟩,
          ⟨2, "B", "b@c.io", "UX", .inactive⟩], false, none⟩
        ⟨1, "A", "a@c.io", "Dev", .active⟩
        (.response ⟨200, "OK", ""⟩
          ⟨1, "A2", "a@c.io", "Lead", .active⟩)).employees.get? 1
      = ((⟨[⟨1, "A", "a@c.io", "Dev", .active⟩,
            ⟨2, "B", "b@c.io", "UX", .inactive⟩], false, none⟩ :
          P1.StoreState).employees.get? 1).map
          (fun e => if e.email = (⟨1, "A", "a@c.io", "Dev", .active⟩ :
              P1.Employee).email
            then ⟨1, "A2", "a@c.io", "Lead", .active⟩ else e) :=
  (update_replaces_only_matching
    ⟨[⟨1, "A", "a@c.io", "Dev", .active⟩,
      ⟨2, "B", "b@c.io", "UX", .inactive⟩], false, none⟩
    ⟨1, "A", "a@c.io", "Dev", .active⟩
    ⟨1, "A2", "a@c.io", "Lead", .active⟩ ⟨200, "OK", ""⟩ (by decide)).2 1

/-- Claim C5: a delete whose remote call fails (non-ok response or transport
error) leaves the local collection unchanged and surfaces an error, in both
the part_001 hook and the EmployeeTable hook. -/
theorem delete_failure_atomic (s : P1.StoreState) (key m : String)
    (r : P1.HttpResponse) (t : ET.HookState) (j : Option String)
    (refetch : Mgmt.MgmtOutcome (List Mgmt.EmployeeRec))
    (hok : r.ok = false) :
    ((P1.deleteEmployee s key (.response r ())).employees = s.employees ∧
     (P1.deleteEmployee s key (.response r ())).error
        = some (P1.errMsg "delete employee" r)) ∧
    ((P1.deleteEmployee s key (.reject m)).employees = s.employees ∧
     (P1.deleteEmployee s key (.reject m)).error = some m) ∧
    ((ET.deleteEmployee t key (.httpFail j) refetch).employees = t.employees ∧
     (ET.deleteEmployee t key (.httpFail j) refetch).error
        = some "Failed to delete employee") ∧
    ((ET.deleteEmployee t key (.reject m) refetch).employees = t.employees ∧
     (ET.deleteEmployee t key (.reject m) refetch).error = some m) := by
  refine ⟨⟨?_, ?_⟩, ⟨rfl, rfl⟩, ⟨rfl, rfl⟩, ⟨rfl, rfl⟩⟩
  · simp [P1.deleteEmployee, hok]
  · simp [P1.deleteEmployee, hok]

/-- Witness for C5 at a 404 response against a one-record collection. -/
theorem delete_failure_atomic_witness :
    (P1.deleteEmployee
        ⟨[⟨1, "A", "a@c.io", "Dev", .active⟩], false, none⟩ "a@c.io"
        (.response ⟨404, "Not Found", ""⟩ ())).employees
      = [⟨1, "A", "a@c.io", "Dev", .active⟩] ∧
    (P1.deleteEmployee
        ⟨[⟨1, "A", "a@c.io", "Dev", .active⟩], false, none⟩ "a@c.io"
        (.response ⟨404, "Not Found", ""⟩ ())).error
      = some (P1.errMsg "delete employee" ⟨404, "Not Found", ""⟩) :=
  (delete_failure_atomic
    ⟨[⟨1, "A", "a@c.io", "Dev", .active⟩], false, none⟩ "a@c.io" "m"
    ⟨404, "Not Found", ""⟩ ⟨[], false, none⟩ none (.ok []) (by decide)).1

/-- Claim C8: a create whose remote call fails surfaces an error and leaves
the local collection (and the loading flag) exactly as before the call. -/
theorem create_failure_atomic (s : P1.StoreState) (m : String)
    (r : P1.HttpResponse) (created : P1.Employee) (hok : r.ok = false) :
    ((P1.addEmployee s (.response r created)).employees = s.employees ∧
     (P1.addEmployee s (.response r created)).loading = s.loading ∧
     (P1.addEmployee s (.response r created)).error
        = some (P1.errMsg "add employee" r)) ∧
    ((P1.addEmployee s (.reject m)).employees = s.employees ∧
     (P1.addEmployee s (.reject m)).loading = s.loading ∧
     (P1.addEmployee s (.reject m)).error = some m) := by
  refine ⟨⟨?_, ?_, ?_⟩, rfl, rfl, rfl⟩ <;> simp [P1.addEmployee, hok]

/-- Witness for C8 at a 500 response against a one-record collection. -/
theorem create_failure_atomic_witness :
    (P1.addEmployee ⟨[⟨1, "A", "a@c.io", "Dev", .active⟩], false, none⟩
        (.response ⟨500, "Internal Server Error", "boom"⟩
          ⟨2, "B", "b@c.io", "UX", .active⟩)).employees
      = [⟨1, "A", "a@c.io", "Dev", .active⟩] ∧
    (P1.addEmployee ⟨[⟨1, "A", "a@c.io", "Dev", .active⟩], false, none⟩
        (.response ⟨500, "Internal Server Error", "boom"⟩
          ⟨2, "B", "b@c.io", "UX", .active⟩)).loading = false ∧
    (P1.addEmployee ⟨[⟨1, "A", "a@c.io", "Dev", .active⟩], false, none⟩
        (.response ⟨500, "Internal Server Error", "boom"⟩
          ⟨2, "B", "b@c.io", "UX", .active⟩)).error
      = some (P1.errMsg "add employee" ⟨500, "Internal Server Error", "boom"⟩) :=
  (create_failure_atomic ⟨[⟨1, "A", "a@c.io", "Dev", .active⟩], false, none⟩
    "m" ⟨500, "Internal Server Error", "boom"⟩ ⟨2, "B", "b@c.io", "UX", .active⟩
    (by decide)).1

/-- Claim C1 counterexample: a PUT keyed by an email absent from the local
collection succeeds (200 response), yet the record echoed by the server is
not in the local collection afterwards - the map over an empty collection
inserts nothing, so local state diverges from the remote collection. -/
theorem update_sync_counterexample :
    (⟨200, "OK", ""⟩ : P1.HttpResponse).ok = true ∧
    (⟨1, "A2", "a@c.io", "Lead", .active⟩ : P1.Employee) ∉
      (P1.updateEmployee ⟨[], false, none⟩ ⟨1, "A", "a@c.io", "Dev", .active⟩
        (.response ⟨200, "OK", ""⟩
          ⟨1, "A2", "a@c.io", "Lead", .active⟩)).employees := by decide

/-- Claim C1 (amended): every successful store operation merges the server
response directly into local state (load replaces, create appends the echoed
record, delete filters the key out), and a successful update keyed by email
leaves the collection containing the updated record PROVIDED the local
collection holds a record with that email key. -/
theorem store_sync (s : P1.StoreState) (emp created updated : P1.Employee)
    (key : String) (r : P1.HttpResponse) (l : List P1.Employee)
    (hok : r.ok = true) :
    (P1.fetchEmployees s (.response r l)).employees = l ∧
    (P1.addEmployee s (.response r created)).employees
        = s.employees ++ [created] ∧
    (P1.deleteEmployee s key (.response r ())).employees
        = s.employees.filter (fun e => e.email ≠ key) ∧
    ((∃ e ∈ s.employees, e.email = emp.email) →
      updated ∈ (P1.updateEmployee s emp (.response r updated)).employees) := by
  refine ⟨by simp [P1.fetchEmployees, hok], by simp [P1.addEmployee, hok],
    by simp [P1.deleteEmployee, hok], ?_⟩
  rintro ⟨e, he, heq⟩
  simp only [P1.updateEmployee, hok, if_true]
  exact List.mem_map.mpr ⟨e, he, by simp [heq]⟩

/-- Witness for C1 (amended): updating the record keyed `a@c.io`, present in
the local collection, leaves the echoed record in the collection. -/
theorem store_sync_witness :
    (⟨1, "A2", "a@c.io", "Lead", .active⟩ : P1.Employee) ∈
      (P1.updateEmployee
        ⟨[⟨1, "A", "a@c.io", "Dev", .active⟩], false, none⟩
        ⟨1, "A", "a@c.io", "Dev", .active⟩
        (.response ⟨200, "OK", ""⟩
          ⟨1, "A2", "a@c.io", "Lead", .active⟩)).employees :=
  (store_sync ⟨[⟨1, "A", "a@c.io", "Dev", .active⟩], false, none⟩
    ⟨1, "A", "a@c.io", "Dev", .active⟩ ⟨2, "B", "b@c.io", "UX", .active⟩
    ⟨1, "A2", "a@c.io", "Lead", .active⟩ "k" ⟨200, "OK", ""⟩ []
    (by decide)).2.2.2 ⟨⟨1, "A", "a@c.io", "Dev", .active⟩, by decide, rfl⟩

/-- Claim C3 counterexample: in the part_001 variant, the form submit handler
calls the save callback unconditionally, so a create submission with an
empty name still issues a POST request - it is not rejected locally. -/
theorem create_validation_counterexample :
    P1.submitRequest ⟨0, "", "a@b.c", "Dev", .active⟩ = some .post := by decide

/-- Claim C3 (amended): in the EmployeeForm.tsx variant, submit calls the
service callback exactly when name, email and role are nonempty after
trimming, the department is nonempty, and the email matches the address
pattern; an empty name yields no call.  The part_001 form, by contrast,
invokes its save callback on every submission without validating. -/
theorem create_validates_locally (f : Mgmt.EmployeeFormData) (g : P1.Employee) :
    (Mgmt.handleSubmit f = some f ↔
      (Mgmt.jsTrim f.name ≠ "" ∧ Mgmt.jsTrim f.email ≠ "" ∧
       Mgmt.matchesEmailPattern f.email = true ∧ f.department ≠ "" ∧
       Mgmt.jsTrim f.role ≠ "")) ∧
    (Mgmt.jsTrim f.name = "" → Mgmt.handleSubmit f = none) ∧
    P1.formHandleSubmit g = some g := by
  refine ⟨?_, ?_, rfl⟩
  · simp only [Mgmt.handleSubmit, Mgmt.validateForm, Mgmt.validateErrors,
      Mgmt.FormErrors.clear]
    split_ifs <;> simp_all
  · intro h
    simp [Mgmt.handleSubmit, Mgmt.validateForm, Mgmt.validateErrors,
      Mgmt.FormErrors.clear, h]

/-- Witness for C3 (amended): a fully valid form is submitted. -/
theorem create_validates_locally_witness :
    Mgmt.handleSubmit ⟨"A", "a@b.c", "Engineering", "Dev"⟩
      = some ⟨"A", "a@b.c", "Engineering", "Dev"⟩ :=
  (create_validates_locally ⟨"A", "a@b.c", "Engineering", "Dev"⟩
    ⟨0, "x", "a@b.c", "Dev", .active⟩).1.mpr (by decide)

/-- Claim C6: a well-formed create accepted by the server leaves the new
record exactly once in the local collection: the part_001 store appends the
echoed record (once, given it was not already present), and the
EmployeeManagement variant re-fetches the whole collection (whose server
copy holds the record once). -/
theorem create_appears_once (s : P1.StoreState) (created : P1.Employee)
    (r : P1.HttpResponse) (ms : Mgmt.MgmtState) (fd : Mgmt.EmployeeFormData)
    (rec : Mgmt.EmployeeRec) (l : List Mgmt.EmployeeRec)
    (hok : r.ok = true) (hnew : created ∉ s.employees)
    (hserver : l.count rec = 1) :
    (P1.addEmployee s (.response r created)).employees.count created = 1 ∧
    (Mgmt.handleAddEmployee ms fd (.ok ()) (.ok l)).employees.count rec = 1 := by
  constructor
  · simp [P1.addEmployee, hok, List.count_append,
      List.count_eq_zero.mpr hnew]
  · simpa [Mgmt.handleAddEmployee, Mgmt.fetchAllEmployees] using hserver

/-- Witness for C6: a fresh record appended to a one-record collection, and
a re-fetch returning the record once. -/
theorem create_appears_once_witness :
    (P1.addEmployee ⟨[⟨1, "A", "a@c.io", "Dev", .active⟩], false, none⟩
        (.response ⟨201, "Created", ""⟩
          ⟨2, "B", "b@c.io", "UX", .active⟩)).employees.count
        ⟨2, "B", "b@c.io", "UX", .active⟩ = 1 ∧
    (Mgmt.handleAddEmployee ⟨[], false, []⟩ ⟨"B", "b@c.io", "Design", "UX"⟩
        (.ok ()) (.ok [⟨"2", "B", "b@c.io", "Design", "UX", 0, 0⟩])).employees.count
        ⟨"2", "B", "b@c.io", "Design", "UX", 0, 0⟩ = 1 :=
  create_appears_once ⟨[⟨1, "A", "a@c.io", "Dev", .active⟩], false, none⟩
    ⟨2, "B", "b@c.io", "UX", .active⟩ ⟨201, "Created", ""⟩
    ⟨[], false, []⟩ ⟨"B", "b@c.io", "Design", "UX"⟩
    ⟨"2", "B", "b@c.io", "Design", "UX", 0, 0⟩
    [⟨"2", "B", "b@c.io", "Design", "UX", 0, 0⟩]
    (by decide) (by decide) (by decide)

/-- Claim C7 counterexample: a successful load does NOT clear the error
message - the hook only ever sets `error` in its catch branch, so a stale
error survives a 200 load that replaces the collection. -/
theorem load_error_not_cleared_counterexample :
    (⟨200, "OK", ""⟩ : P1.HttpResponse).ok = true ∧
    (P1.fetchEmployees ⟨[], true, some "previous failure"⟩
        (.response ⟨200, "OK", ""⟩ [])).error = some "previous failure" := by
  decide

/-- Claim C7 (amended): a successful load replaces the collection and clears
the loading flag while leaving the error message unchanged; a failed load
sets the error message, leaves the previous collection untouched, and clears
the loading flag.  The EmployeeManagement variant behaves likewise with its
toast channel in place of the error message. -/
theorem load_state_transitions (s : P1.StoreState) (r : P1.HttpResponse)
    (l : List P1.Employee) (m : String) (ms : Mgmt.MgmtState)
    (data : List Mgmt.EmployeeRec) (j : Option String) :
    (r.ok = true →
      P1.fetchEmployees s (.response r l)
        = { employees := l, loading := false, error := s.error }) ∧
    (r.ok = false →
      P1.fetchEmployees s (.response r l)
        = { employees := s.employees, loading := false,
            error := some (P1.errMsg "fetch employees" r) }) ∧
    (P1.fetchEmployees s (.reject m)
        = { employees := s.employees, loading := false, error := some m }) ∧
    (Mgmt.fetchAllEmployees ms (.ok data)
        = { employees := data, isLoading := false, toasts := ms.toasts }) ∧
    (Mgmt.fetchAllEmployees ms (.httpFail j)
        = { employees := ms.employees, isLoading := false,
            toasts := ms.toasts ++ ["Failed to load employee data."] }) := by
  refine ⟨fun h => ?_, fun h => ?_, rfl, rfl, rfl⟩
  · simp [P1.fetchEmployees, h]
  · simp [P1.fetchEmployees, h]

/-- Witness for C7 (amended): a 200 load applied to a state with a stale
error keeps the error and clears loading. -/
theorem load_state_transitions_witness :
    P1.fetchEmployees ⟨[], true, some "stale"⟩
        (.response ⟨200, "OK", ""⟩ [⟨1, "A", "a@c.io", "Dev", .active⟩])
      = { employees := [⟨1, "A", "a@c.io", "Dev", .active⟩], loading := false,
          error := some "stale" } :=
  (load_state_transitions ⟨[], true, some "stale"⟩ ⟨200, "OK", ""⟩
    [⟨1, "A", "a@c.io", "Dev", .active⟩] "m" ⟨[], false, []⟩ [] none).1
    (by decide)

/-- Claim C9: a non-2xx response makes every part_001 store operation fail:
the error is set to a message built from the text body when the body is
nonempty and from the transport status text otherwise, and the collection
is not merged. -/
theorem non2xx_failure_message (s : P1.StoreState) (emp : P1.Employee)
    (key n : String) (r : P1.HttpResponse) (l : List P1.Employee)
    (created updated : P1.Employee)
    (h : ¬(200 ≤ r.status ∧ r.status < 300)) :
    r.ok = false ∧
    (P1.fetchEmployees s (.response r l)).error
        = some (P1.errMsg "fetch employees" r) ∧
    (P1.fetchEmployees s (.response r l)).employees = s.employees ∧
    (P1.addEmployee s (.response r created)).error
        = some (P1.errMsg "add employee" r) ∧
    (P1.addEmployee s (.response r created)).employees = s.employees ∧
    (P1.updateEmployee s emp (.response r updated)).error
        = some (P1.errMsg "update employee" r) ∧
    (P1.updateEmployee s emp (.response r updated)).employees = s.employees ∧
    (P1.deleteEmployee s key (.response r ())).error
        = some (P1.errMsg "delete employee" r) ∧
    (P1.deleteEmployee s key (.response r ())).employees = s.employees ∧
    (r.textBody = "" →
      P1.errMsg n r = "Failed to " ++ n ++ " (" ++ toString r.status ++ "): "
        ++ r.statusText) ∧
    (r.textBody ≠ "" →
      P1.errMsg n r = "Failed to " ++ n ++ " (" ++ toString r.status ++ "): "
        ++ r.textBody) := by
  have hok : r.ok = false := by
    simp only [P1.HttpResponse.ok, Bool.and_eq_false_iff,
      decide_eq_false_iff_not]
    omega
  refine ⟨hok, ?_, ?_, ?_, ?_, ?_, ?_, ?_, ?_, fun hb => ?_, fun hb => ?_⟩
  · simp [P1.fetchEmployees, hok]
  · simp [P1.fetchEmployees, hok]
  · simp [P1.addEmployee, hok]
  · simp [P1.addEmployee, hok]
  · simp [P1.updateEmployee, hok]
  · simp [P1.updateEmployee, hok]
  · simp [P1.deleteEmployee, hok]
  · simp [P1.deleteEmployee, hok]
  · simp [P1.errMsg, hb]
  · simp [P1.errMsg, hb]

/-- Witness for C9 at a 404 with an empty body (message falls back to the
status text). -/
theorem non2xx_failure_message_witness :
    (P1.deleteEmployee ⟨[], false, none⟩ "a@c.io"
        (.response ⟨404, "Not Found", ""⟩ ())).error
      = some (P1.errMsg "delete employee" ⟨404, "Not Found", ""⟩) ∧
    P1.errMsg "delete employee" ⟨404, "Not Found", ""⟩
      = "Failed to " ++ "delete employee" ++ " (" ++ toString 404 ++ "): "
        ++ "Not Found" :=
  ⟨(non2xx_failure_message ⟨[], false, none⟩
      ⟨1, "A", "a@c.io", "Dev", .active⟩ "a@c.io" "delete employee"
      ⟨404, "Not Found", ""⟩ [] ⟨1, "A", "a@c.io", "Dev", .active⟩
      ⟨1, "A", "a@c.io", "Dev", .active⟩ (by decide)).2.2.2.2.2.2.2.1,
   (non2xx_failure_message ⟨[], false, none⟩
      ⟨1, "A", "a@c.io", "Dev", .active⟩ "a@c.io" "delete employee"
      ⟨404, "Not Found", ""⟩ [] ⟨1, "A", "a@c.io", "Dev", .active⟩
      ⟨1, "A", "a@c.io", "Dev", .active⟩ (by decide)).2.2.2.2.2.2.2.2.2.1 rfl⟩

/-- Claim C10 counterexample: the targeted employee has id `1` and email
`2@c` (id differs from email), yet another record in the collection has id
`2@c`; the id lookup finds that other record, so the delete proceeds and a
DELETE request IS issued - to the email of the other record - instead of
surfacing the not-found error. -/
theorem delete_key_mismatch_counterexample :
    (⟨"1", "A", "2@c", "Engineering", "Dev", 0, 0⟩ : Mgmt.EmployeeRec).id
        ≠ (⟨"1", "A", "2@c", "Engineering", "Dev", 0, 0⟩ :
            Mgmt.EmployeeRec).email ∧
    (Mgmt.handleDeleteConfirm
        ⟨[⟨"1", "A", "2@c", "Engineering", "Dev", 0, 0⟩,
          ⟨"2@c", "B", "b@c", "Design", "UX", 0, 0⟩], false, []⟩
        ⟨"1", "A", "2@c", "Engineering", "Dev", 0, 0⟩
        (.ok ()) (.ok [])).2 = some "b@c" := by decide

/-- Claim C10 (amended): confirming a delete passes the EMAIL of the
selected employee as the key, and the handler looks that key up among
employee ids; whenever NO employee of the local collection has an id equal
to that email, the handler surfaces the `Employee not found in local
state.` toast, issues no network request, and leaves the collection
unchanged. -/
theorem delete_key_not_found (s : Mgmt.MgmtState) (target : Mgmt.EmployeeRec)
    (del : Mgmt.MgmtOutcome Unit)
    (refetch : Mgmt.MgmtOutcome (List Mgmt.EmployeeRec))
    (h : ∀ emp ∈ s.employees, emp.id ≠ target.email) :
    Mgmt.handleDeleteConfirm s target del refetch
      = ({ s with
            toasts := s.toasts ++ ["Employee not found in local state."] },
         none) := by
  have hf : s.employees.find? (fun emp => emp.id = target.email) = none := by
    apply List.find?_eq_none.mpr
    intro x hx
    simp [h x hx]
  simp [Mgmt.handleDeleteConfirm, Mgmt.handleDeleteEmployee, hf]

/-- Witness for C10 (amended): a collection of numeric-id records contains
no id equal to the email of the selected employee, so confirming the delete
toasts the not-found error and issues no request. -/
theorem delete_key_not_found_witness :
    Mgmt.handleDeleteConfirm
        ⟨[⟨"1", "A", "a@c.io", "Engineering", "Dev", 0, 0⟩], false, []⟩
        ⟨"1", "A", "a@c.io", "Engineering", "Dev", 0, 0⟩ (.ok ()) (.ok [])
      = (⟨[⟨"1", "A", "a@c.io", "Engineering", "Dev", 0, 0⟩], false,
          ["Employee not found in local state."]⟩, none) :=
  delete_key_not_found
    ⟨[⟨"1", "A", "a@c.io", "Engineering", "Dev", 0, 0⟩], false, []⟩
    ⟨"1", "A", "a@c.io", "Engineering", "Dev", 0, 0⟩ (.ok ()) (.ok [])
    (by decide)
